import Mathlib

set_option maxRecDepth 8000

namespace LazyImport

/-- Name under which the guard must be loaded by the open-block pattern
(source constant `LAZY_IMPORT = "lazy_import"`). -/
def LAZY_IMPORT : String := "lazy_import"

/-- Opcode numbers, from the source's `OpCode` IntEnum. -/
def OpCode.POP_TOP : Nat := 1

def OpCode.PUSH_NULL : Nat := 2

def OpCode.WITH_EXCEPT_START : Nat := 49

def OpCode.BEFORE_WITH : Nat := 53

def OpCode.LOAD_CONST : Nat := 100

def OpCode.LOAD_NAME : Nat := 101

def OpCode.IMPORT_NAME : Nat := 108

def OpCode.IMPORT_FROM : Nat := 109

def OpCode.CALL_FUNCTION : Nat := 131

def OpCode.SETUP_WITH : Nat := 143

def OpCode.PRECALL : Nat := 166

def OpCode.CALL : Nat := 171

/-- Extra CPython opcodes that appear in compiled blocks but that the source's
scanner never tests for; kept as raw numbers, as the source ignores them. -/
def OpCode.STORE_NAME : Nat := 90

def OpCode.POP_BLOCK : Nat := 122

def OpCode.POP_JUMP_IF_TRUE : Nat := 115

def OpCode.RETURN_VALUE : Nat := 83

/-- The `argval` of a decoded instruction, as the scanner consumes it: the names
it reads are strings (`LOAD_NAME`, `IMPORT_NAME`), and the constants standing
before an `IMPORT_NAME` in compiled import statements are either `None`
(bare import, no from-list) or a tuple of plain identifiers (from-list). -/
inductive ArgVal where
  | vNone : ArgVal
  | vStr : String → ArgVal
  | vNames : List String → ArgVal
deriving DecidableEq

/-- One decoded operation of a code object (`dis.Instruction`), restricted to
the fields the source reads: `opcode`, `argval`, `starts_line`. -/
structure Instruction where
  opcode : Nat
  argval : ArgVal
  starts_line : Bool
deriving DecidableEq

/-- Python `list(argval)` as applied in `_extract_imports`: `None` was already
filtered to the empty list by the source's conditional; a tuple of identifiers
lists them; `list` applied to a string yields its characters. -/
def argvalNames : ArgVal → List String
  | ArgVal.vNone => []
  | ArgVal.vStr s => s.data.map (fun c => String.mk [c])
  | ArgVal.vNames ns => ns

/-- Reading an `argval` that the source uses directly as a string
(the dotted module path of an `IMPORT_NAME`). -/
def argvalStr : ArgVal → String
  | ArgVal.vStr s => s
  | _ => ""

/-- Python tuple `<` (lexicographic, a strict prefix is smaller), on the numeric
components of `sys.version_info`; the release-level string of a real
`version_info` is never reached when comparing against the 2-tuples the source
uses, since major and minor decide first and a longer tuple with equal prefix
is already greater. -/
def pyLt : List Nat → List Nat → Bool
  | _, [] => false
  | [], _ :: _ => true
  | a :: as, b :: bs => a < b || (a == b && pyLt as bs)

/-- Python tuple `<=`. -/
def pyLe (u v : List Nat) : Bool := pyLt u v || u == v

/-- Python tuple `>=`. -/
def pyGe (u v : List Nat) : Bool := pyLe v u

/-- The four-instruction open-block shape tested by `_is_being_lazy` for
interpreters at or below (3, 11): `LOAD_NAME lazy_import; CALL_FUNCTION;
SETUP_WITH; POP_TOP` (any other length fails at once). -/
def matchOpen39 (block : List Instruction) : Bool :=
  match block with
  | [load_name, call_function, setup_with, pop_top] =>
    decide (load_name.opcode = OpCode.LOAD_NAME
      ∧ load_name.argval = ArgVal.vStr LAZY_IMPORT
      ∧ call_function.opcode = OpCode.CALL_FUNCTION
      ∧ setup_with.opcode = OpCode.SETUP_WITH
      ∧ pop_top.opcode = OpCode.POP_TOP)
  | _ => false

/-- The six-instruction open-block shape tested by `_is_being_lazy` for 3.11:
`PUSH_NULL; LOAD_NAME lazy_import; PRECALL; CALL; BEFORE_WITH; POP_TOP`. -/
def matchOpen311 (block : List Instruction) : Bool :=
  match block with
  | [push_null, load_name, precall, call, before_with, pop_top] =>
    decide (load_name.opcode = OpCode.LOAD_NAME
      ∧ load_name.argval = ArgVal.vStr LAZY_IMPORT
      ∧ push_null.opcode = OpCode.PUSH_NULL
      ∧ precall.opcode = OpCode.PRECALL
      ∧ call.opcode = OpCode.CALL
      ∧ before_with.opcode = OpCode.BEFORE_WITH
      ∧ pop_top.opcode = OpCode.POP_TOP)
  | _ => false

/-- Message of the RuntimeError raised by `_is_being_lazy` on an interpreter
version matching neither pattern. -/
def unsupportedMessage (version : List Nat) : String :=
  "Python version " ++ toString version ++ " is not supported."

/-- `_is_being_lazy`: version-dispatched open-block classifier.  The
`version <= (3, 11)` branch uses the four-instruction shape, the
`>= (3, 11) and < (3, 12)` branch the six-instruction shape, and any other
version raises `RuntimeError` (modelled as `Except.error`). -/
def _is_being_lazy (version : List Nat) (block : List Instruction) :
    Except String Bool :=
  if pyLe version [3, 11] then Except.ok (matchOpen39 block)
  else if pyGe version [3, 11] && pyLt version [3, 12] then
    Except.ok (matchOpen311 block)
  else Except.error (unsupportedMessage version)

/-- `_is_existing_block`: the close marker — the block's opcode list contains
`WITH_EXCEPT_START` anywhere. -/
def _is_existing_block (block : List Instruction) : Bool :=
  (block.map (fun i => i.opcode)).contains OpCode.WITH_EXCEPT_START

/-- `_extract_imports`: scan adjacent instruction pairs (`zip` of the block
with its own tail) and, whenever a `LOAD_CONST` is immediately followed by an
`IMPORT_NAME`, emit `(module path, names)` with the names taken from the
constant (`[]` when the constant is `None`). -/
def _extract_imports (block : List Instruction) :
    List (String × List String) :=
  (block.zip block.tail).filterMap (fun p =>
    if p.1.opcode = OpCode.LOAD_CONST ∧ p.2.opcode = OpCode.IMPORT_NAME then
      some (argvalStr p.2.argval, argvalNames p.1.argval)
    else none)

/-- One step of the block-partition loop of `_find_what_to_imports`: on a
`starts_line` instruction the running buffer is appended to the block list and
a new buffer opened; otherwise the instruction joins the buffer. -/
def blockStep (acc : List (List Instruction) × List Instruction)
    (i : Instruction) : List (List Instruction) × List Instruction :=
  if i.starts_line then (acc.1 ++ [acc.2], [i]) else (acc.1, acc.2 ++ [i])

/-- The partition state after the loop: collected blocks and the still-open
trailing buffer (which the source never appends). -/
def blockPartition (instrs : List Instruction) :
    List (List Instruction) × List Instruction :=
  instrs.foldl blockStep ([], [])

/-- `instruction_blocks` as the scanner goes on to use them: only the first
component of the partition state — the trailing buffer is dropped. -/
def instructionBlocks (instrs : List Instruction) : List (List Instruction) :=
  (blockPartition instrs).1

/-- The region-collection loop of `_find_what_to_imports`: an open block
(re)starts a collecting buffer, a block containing the close marker seals the
buffered blocks (close block included) into one region, and other blocks are
buffered while collecting.  A classifier error propagates. -/
def collectLoop (version : List Nat) :
    List (List Instruction) → List (List (List Instruction)) →
    Option (List (List Instruction)) →
    Except String (List (List (List Instruction)))
  | [], acc, _ => Except.ok acc
  | block :: rest, acc, buf =>
    (_is_being_lazy version block).bind (fun isLazy =>
      if isLazy then collectLoop version rest acc (some [])
      else
        match buf with
        | none => collectLoop version rest acc none
        | some b =>
          if _is_existing_block block then
            collectLoop version rest (acc ++ [b ++ [block]]) none
          else collectLoop version rest acc (some (b ++ [block])))

/-- Concatenation of a list of lists (the source's repeated `list.extend`). -/
def joinAll : List (List α) → List α
  | [] => []
  | a :: rest => a ++ joinAll rest

/-- `_find_what_to_imports`: partition into line-aligned blocks, collect the
guarded regions, then extract the import declarations of every block of every
region, regions in order, blocks in order within a region. -/
def _find_what_to_imports (version : List Nat) (instrs : List Instruction) :
    Except String (List (String × List String)) :=
  match collectLoop version (instructionBlocks instrs) [] none with
  | Except.error e => Except.error e
  | Except.ok regions =>
    Except.ok (joinAll (regions.map (fun region =>
      joinAll (region.map _extract_imports))))

/-- One local-namespace write performed by `_map_lazy_importer`: the name bound
in the caller's frame and the `__module_name__` of the fresh placeholder
installed under it (its `__varname__` is the bound name itself and its
`__loaded__` is `None`). -/
structure Binding where
  name : String
  module_name : String
deriving DecidableEq

/-- The writes of `_map_lazy_importer`'s nested loops: one binding per name of
each declaration, declarations in order, names in order. -/
def bindingsOfDecls (decls : List (String × List String)) : List Binding :=
  joinAll (decls.map (fun d => d.2.map (fun n => Binding.mk n d.1)))

/-- A call frame as the guard inspects it: code-object name, decoded
instruction stream, and the caller frame (`f_back`). -/
inductive Frame where
  | mk : String → List Instruction → Option Frame → Frame

/-- `f_code.co_name` of a frame. -/
def Frame.co_name : Frame → String
  | Frame.mk n _ _ => n

/-- The decoded instruction stream of the frame's code object. -/
def Frame.f_code : Frame → List Instruction
  | Frame.mk _ c _ => c

/-- `f_back` of a frame. -/
def Frame.f_back : Frame → Option Frame
  | Frame.mk _ _ b => b

/-- `_map_lazy_importer`: disassemble the import frame's code, find the
lazy-import declarations, and install one fresh unresolved placeholder per bound
name into the frame's locals (returned here as the list of writes). -/
def _map_lazy_importer (version : List Nat) (import_frame : Frame) :
    Except String (List Binding) :=
  match _find_what_to_imports version import_frame.f_code with
  | Except.error e => Except.error e
  | Except.ok decls => Except.ok (bindingsOfDecls decls)

/-- How the guarded block's body ended: normally, with an `ImportError`
carrying a message, or with an exception of any other kind. -/
inductive BlockOutcome where
  | normal : BlockOutcome
  | importError : String → BlockOutcome
  | otherException : BlockOutcome

/-- Outcome of the guard itself, as seen by its caller. -/
inductive GuardResult where
  | normalExit : GuardResult
  | swallowed : Frame → List Binding → GuardResult
  | runtimeError : String → GuardResult
  | assertFail : GuardResult
  | propagated : GuardResult

/-- The guard's observable exit state: its control outcome and the value of
`sys.path` once the guard has exited. -/
structure GuardExit where
  result : GuardResult
  sysPath : List String

/-- The suppression configuration installed on entry
(`sys.path = ["__lazy_importing__"]`). -/
def suppressionPath : List String := ["__lazy_importing__"]

/-- Does `needle` start `hay`? (step of Python's `in` on strings). -/
def startsWithChars : List Char → List Char → Bool
  | [], _ => true
  | _ :: _, [] => false
  | a :: as, b :: bs => a == b && startsWithChars as bs

/-- Python `needle in hay` on strings: contiguous substring at any offset. -/
def hasSubstr (needle : List Char) : List Char → Bool
  | [] => startsWithChars needle []
  | a :: t => startsWithChars needle (a :: t) || hasSubstr needle t

/-- The marker tested by the guard: `"circular import" in err.msg`. -/
def isCircularMsg (msg : String) : Bool :=
  hasSubstr "circular import".data msg.data

/-- `lazy_import`'s full execution, given the entry `sys.path`, the body's
outcome, and the frame the traceback points at inside the handler (the
generator's own frame, whose `f_back` is the context manager's `__exit__`,
whose `f_back` is the frame that owns the block).

Control flow of the source: on a normal exit `sys.path` is restored and the
guard returns.  On an `ImportError` whose message holds the circular-import
marker, `sys.path` is *not* restored; the handler walks `tb_frame.f_back`,
aborts with `RuntimeError("This should not happen. ")` unless that frame
exists and its code name is `__exit__`, asserts its own caller exists, and
delegates that caller to `_map_lazy_importer`, swallowing the exception.  On
any other `ImportError`, `sys.path` is restored first and the same two-frame
walk (with plain assertions) and delegation happen.  Any other exception
propagates, skipping the restore (there is no `finally`). -/
def lazy_import_run (version : List Nat) (entryPath : List String)
    (outcome : BlockOutcome) (tb_frame : Frame) : GuardExit :=
  let backed_up_sys_path := entryPath
  match outcome with
  | BlockOutcome.normal => GuardExit.mk GuardResult.normalExit backed_up_sys_path
  | BlockOutcome.otherException =>
    GuardExit.mk GuardResult.propagated suppressionPath
  | BlockOutcome.importError msg =>
    if isCircularMsg msg then
      match tb_frame.f_back with
      | none =>
        GuardExit.mk (GuardResult.runtimeError "This should not happen. ")
          suppressionPath
      | some contextmanager_frame =>
        if contextmanager_frame.co_name = "__exit__" then
          match contextmanager_frame.f_back with
          | none => GuardExit.mk GuardResult.assertFail suppressionPath
          | some import_frame =>
            match _map_lazy_importer version import_frame with
            | Except.ok binds =>
              GuardExit.mk (GuardResult.swallowed import_frame binds)
                suppressionPath
            | Except.error e =>
              GuardExit.mk (GuardResult.runtimeError e) suppressionPath
        else
          GuardExit.mk (GuardResult.runtimeError "This should not happen. ")
            suppressionPath
    else
      match tb_frame.f_back with
      | none => GuardExit.mk GuardResult.assertFail backed_up_sys_path
      | some contextmanager_frame =>
        match contextmanager_frame.f_back with
        | none => GuardExit.mk GuardResult.assertFail backed_up_sys_path
        | some import_frame =>
          match _map_lazy_importer version import_frame with
          | Except.ok binds =>
            GuardExit.mk (GuardResult.swallowed import_frame binds)
              backed_up_sys_path
          | Except.error e =>
            GuardExit.mk (GuardResult.runtimeError e) backed_up_sys_path

/-- The attribute surface of one module member, over an abstract type `α` of
attribute values: its attribute table (serving both `__dict__` and `dir`), and
the abstract result of calling the member. -/
structure Member (α : Type) where
  attrs : List (String × α)
  callResult : α
deriving DecidableEq

/-- A loadable module: its members by name. -/
structure PyModule (α : Type) where
  members : List (String × Member α)
deriving DecidableEq

/-- The host module system as the placeholder consumes it:
`importlib.import_module` by dotted path. -/
def Env (α : Type) : Type := String → Option (PyModule α)

/-- Python `setattr` on an attribute table: overwrite in place when the key is
present, append otherwise. -/
def setAttr (l : List (String × β)) (k : String) (v : β) :
    List (String × β) :=
  if l.any (fun p => p.1 == k) then
    l.map (fun p => if p.1 == k then (k, v) else p)
  else l ++ [(k, v)]

/-- The identity-defining members that `_load`'s copy loop skips. -/
def excludedMembers : List String := ["__class__", "__weakref__", "__dict__"]

/-- The member copy of `_load`: first the wholesale `__dict__` injection
(`base`), then one `setattr` per `dir` entry (`src`), skipping the excluded
identity members. -/
def copyMembers (base src : List (String × α)) : List (String × α) :=
  src.foldl (fun d p => if p.1 ∈ excludedMembers then d else setAttr d p.1 p.2)
    base

/-- A `_LazyImporter` instance: its `__module_name__`, `__varname__`,
`__loaded__` (`none` while unresolved), its own member table (instance
`__dict__`, populated by `_load`), and a ghost counter of how many times the
real loader has been entered (not a source field; it instruments the
`importlib.import_module` call for the at-most-once property). -/
structure LazyImporter (α : Type) where
  module_name : String
  varname : String
  loaded : Option (Member α)
  dict : List (String × α)
  loadCount : Nat
deriving DecidableEq

/-- `_LazyImporter._load`: when `__loaded__` is `None`, import the owning
module, take the attribute named `__varname__`, copy its member surface onto
`self`, record it in `__loaded__`; otherwise return the recorded value at
once.  `none` models the `ImportError`/`AttributeError` propagating when the
module or the attribute is genuinely missing. -/
def LazyImporter._load (env : Env α) (s : LazyImporter α) :
    Option (LazyImporter α × Member α) :=
  match s.loaded with
  | some m => some (s, m)
  | none =>
    match env s.module_name with
    | none => none
    | some mod =>
      match mod.members.lookup s.varname with
      | none => none
      | some mem =>
        some (LazyImporter.mk s.module_name s.varname (some mem)
          (copyMembers mem.attrs mem.attrs) (s.loadCount + 1), mem)

/-- Attribute access on a placeholder: ordinary lookup in the instance member
table first; only when that fails is `__getattr__` invoked, which loads and
reads the attribute off the real member. -/
def LazyImporter.getattr (env : Env α) (s : LazyImporter α) (name : String) :
    Option (LazyImporter α × α) :=
  match s.dict.lookup name with
  | some v => some (s, v)
  | none =>
    match s._load env with
    | none => none
    | some (s', mem) => (mem.attrs.lookup name).map (fun v => (s', v))

/-- `_LazyImporter.__call__`: load, then invoke the real member. -/
def LazyImporter.call (env : Env α) (s : LazyImporter α) :
    Option (LazyImporter α × α) :=
  (s._load env).map (fun p => (p.1, p.2.callResult))

/-- The fresh placeholder `_map_lazy_importer` installs for one binding:
class attributes `__module_name__` and `__varname__` set, `__loaded__ = None`,
empty instance member table, loader never entered. -/
def freshPlaceholder (b : Binding) : LazyImporter α :=
  LazyImporter.mk b.module_name b.name none [] 0

/-- Applying the binder's writes to a frame's local namespace (each write
overwrites whatever was bound under the name). -/
def applyBindings (locals : List (String × LazyImporter α))
    (bs : List Binding) : List (String × LazyImporter α) :=
  bs.foldl (fun loc b => setAttr loc b.name (freshPlaceholder b)) locals

/-- Eager-import reference semantics: the attribute `a` of the member `n` of
the module `m`, obtained by a direct `import_module` and two `getattr`s. -/
def eagerImportAttr (env : Env α) (m n a : String) : Option α :=
  match env m with
  | none => none
  | some mod =>
    match mod.members.lookup n with
    | none => none
    | some mem => mem.attrs.lookup a

/-- A 3.10-series interpreter version (first classifier branch). -/
def ver310 : List Nat := [3, 10, 6]

/-- The 3.9/3.10 compiled form of a module-level

```
with lazy_import():
    from m import n
```

followed by one further source line (the rest of the module), matching the
disassembly shown in the source's docstrings: the open line's four-instruction
block; the import line's block carrying the level constant, the from-list
constant, `IMPORT_NAME m`, the name binding, and the with-cleanup sequence
through `WITH_EXCEPT_START`; then the next line's instructions. -/
def guardedFromImportCode (m n : String) : List Instruction :=
  [ Instruction.mk OpCode.LOAD_NAME (ArgVal.vStr LAZY_IMPORT) true,
    Instruction.mk OpCode.CALL_FUNCTION ArgVal.vNone false,
    Instruction.mk OpCode.SETUP_WITH ArgVal.vNone false,
    Instruction.mk OpCode.POP_TOP ArgVal.vNone false,
    Instruction.mk OpCode.LOAD_CONST ArgVal.vNone true,
    Instruction.mk OpCode.LOAD_CONST (ArgVal.vNames [n]) false,
    Instruction.mk OpCode.IMPORT_NAME (ArgVal.vStr m) false,
    Instruction.mk OpCode.IMPORT_FROM (ArgVal.vStr n) false,
    Instruction.mk OpCode.STORE_NAME (ArgVal.vStr n) false,
    Instruction.mk OpCode.POP_TOP ArgVal.vNone false,
    Instruction.mk OpCode.POP_BLOCK ArgVal.vNone false,
    Instruction.mk OpCode.WITH_EXCEPT_START ArgVal.vNone false,
    Instruction.mk OpCode.POP_JUMP_IF_TRUE ArgVal.vNone false,
    Instruction.mk OpCode.LOAD_CONST ArgVal.vNone true,
    Instruction.mk OpCode.RETURN_VALUE ArgVal.vNone false ]

/-- The same compiled form for a bare `import m` (no from-clause) inside the
guard: the from-list constant is absent (`None`). -/
def guardedBareImportCode (m : String) : List Instruction :=
  [ Instruction.mk OpCode.LOAD_NAME (ArgVal.vStr LAZY_IMPORT) true,
    Instruction.mk OpCode.CALL_FUNCTION ArgVal.vNone false,
    Instruction.mk OpCode.SETUP_WITH ArgVal.vNone false,
    Instruction.mk OpCode.POP_TOP ArgVal.vNone false,
    Instruction.mk OpCode.LOAD_CONST ArgVal.vNone true,
    Instruction.mk OpCode.LOAD_CONST ArgVal.vNone false,
    Instruction.mk OpCode.IMPORT_NAME (ArgVal.vStr m) false,
    Instruction.mk OpCode.STORE_NAME (ArgVal.vStr m) false,
    Instruction.mk OpCode.POP_TOP ArgVal.vNone false,
    Instruction.mk OpCode.POP_BLOCK ArgVal.vNone false,
    Instruction.mk OpCode.WITH_EXCEPT_START ArgVal.vNone false,
    Instruction.mk OpCode.POP_JUMP_IF_TRUE ArgVal.vNone false,
    Instruction.mk OpCode.LOAD_CONST ArgVal.vNone true,
    Instruction.mk OpCode.RETURN_VALUE ArgVal.vNone false ]

/-- The same guarded from-import, but with the guard invoked under an alias:
the opening `LOAD_NAME` loads `aname` instead of the literal `lazy_import`. -/
def aliasedGuardCode (aname m n : String) : List Instruction :=
  [ Instruction.mk OpCode.LOAD_NAME (ArgVal.vStr aname) true,
    Instruction.mk OpCode.CALL_FUNCTION ArgVal.vNone false,
    Instruction.mk OpCode.SETUP_WITH ArgVal.vNone false,
    Instruction.mk OpCode.POP_TOP ArgVal.vNone false,
    Instruction.mk OpCode.LOAD_CONST ArgVal.vNone true,
    Instruction.mk OpCode.LOAD_CONST (ArgVal.vNames [n]) false,
    Instruction.mk OpCode.IMPORT_NAME (ArgVal.vStr m) false,
    Instruction.mk OpCode.IMPORT_FROM (ArgVal.vStr n) false,
    Instruction.mk OpCode.STORE_NAME (ArgVal.vStr n) false,
    Instruction.mk OpCode.POP_TOP ArgVal.vNone false,
    Instruction.mk OpCode.POP_BLOCK ArgVal.vNone false,
    Instruction.mk OpCode.WITH_EXCEPT_START ArgVal.vNone false,
    Instruction.mk OpCode.POP_JUMP_IF_TRUE ArgVal.vNone false,
    Instruction.mk OpCode.LOAD_CONST ArgVal.vNone true,
    Instruction.mk OpCode.RETURN_VALUE ArgVal.vNone false ]

/-- The opening block of `aliasedGuardCode` on its own. -/
def aliasOpenBlock (aname : String) : List Instruction :=
  [ Instruction.mk OpCode.LOAD_NAME (ArgVal.vStr aname) true,
    Instruction.mk OpCode.CALL_FUNCTION ArgVal.vNone false,
    Instruction.mk OpCode.SETUP_WITH ArgVal.vNone false,
    Instruction.mk OpCode.POP_TOP ArgVal.vNone false ]

/-- The import line's block of `aliasedGuardCode` (concrete module `m`,
name `n`): the from-import pair and the with-cleanup sequence through the
close marker. -/
def aliasImportCloseBlock : List Instruction :=
  [ Instruction.mk OpCode.LOAD_CONST ArgVal.vNone true,
    Instruction.mk OpCode.LOAD_CONST (ArgVal.vNames ["n"]) false,
    Instruction.mk OpCode.IMPORT_NAME (ArgVal.vStr "m") false,
    Instruction.mk OpCode.IMPORT_FROM (ArgVal.vStr "n") false,
    Instruction.mk OpCode.STORE_NAME (ArgVal.vStr "n") false,
    Instruction.mk OpCode.POP_TOP ArgVal.vNone false,
    Instruction.mk OpCode.POP_BLOCK ArgVal.vNone false,
    Instruction.mk OpCode.WITH_EXCEPT_START ArgVal.vNone false,
    Instruction.mk OpCode.POP_JUMP_IF_TRUE ArgVal.vNone false ]

/-- Is this constant of the kind the extraction rule describes: absent, or a
sequence of plain identifiers (so, not a plain string or other value)? -/
def constIsAbsentOrNames : ArgVal → Bool
  | ArgVal.vStr _ => false
  | _ => true

/-- Specification-side restatement of the Import Extractor contract, written
from the claim's words: scanning adjacent instruction pairs in instruction
order, a declaration pairing the imported module's dotted path with the
identifier sequence of the constant (empty when the constant is absent) is
emitted exactly when a load-constant instruction whose constant is absent or a
sequence of identifiers is immediately followed by an import-module-by-name
instruction. -/
def extractImportsSpec : List Instruction → List (String × List String)
  | i1 :: i2 :: rest =>
    if i1.opcode = OpCode.LOAD_CONST ∧ constIsAbsentOrNames i1.argval = true
        ∧ i2.opcode = OpCode.IMPORT_NAME then
      (argvalStr i2.argval, argvalNames i1.argval) ::
        extractImportsSpec (i2 :: rest)
    else extractImportsSpec (i2 :: rest)
  | _ => []

/-- The frame that owns a guarded block, in the demonstration stack (its code
is empty: nothing to scan). -/
def impFrameDemo : Frame := Frame.mk "<module>" [] none

/-- The context manager's `__exit__` frame of the demonstration stack. -/
def cmFrameDemo : Frame := Frame.mk "__exit__" [] (some impFrameDemo)

/-- The guard generator's own frame (what the traceback points at inside the
handler) in the demonstration stack. -/
def tbFrameDemo : Frame := Frame.mk "lazy_import" [] (some cmFrameDemo)

/-- C1 (counterexample): the claim that `sys.path` after the guard exits
always equals the configuration recorded on entry fails concretely: a swallowed
circular-import failure over a well-formed stack leaves the suppression
configuration in place, not the entry configuration. -/
theorem c1_counterexample :
    (lazy_import_run ver310 ["site-packages"]
      (BlockOutcome.importError
        "cannot import name X (most likely due to a circular import)")
      tbFrameDemo).sysPath ≠ ["site-packages"] := by
  decide

/-- C1 (amended): the search-path configuration observed after the guard has
exited equals the entry configuration on a normal exit and on a swallowed
non-circular resolution failure; on a swallowed circular-import failure and on
a propagating exception of any other kind it is instead left at the
suppression configuration installed on entry. -/
theorem c1_sysPath_amended (v : List Nat) (p : List String) (tb : Frame)
    (msgc msgo : String) (hc : isCircularMsg msgc = true)
    (ho : isCircularMsg msgo = false) :
    (lazy_import_run v p BlockOutcome.normal tb).sysPath = p
    ∧ (lazy_import_run v p (BlockOutcome.importError msgo) tb).sysPath = p
    ∧ (lazy_import_run v p (BlockOutcome.importError msgc) tb).sysPath
        = suppressionPath
    ∧ (lazy_import_run v p BlockOutcome.otherException tb).sysPath
        = suppressionPath := by
  refine ⟨rfl, ?_, ?_, rfl⟩
  · simp only [lazy_import_run, ho, Bool.false_eq_true, if_false]
    cases htb : tb.f_back with
    | none => rfl
    | some cm =>
      cases hcm : cm.f_back with
      | none => simp [hcm]
      | some imp =>
        cases hmap : _map_lazy_importer v imp with
        | error e => simp [hcm, hmap]
        | ok binds => simp [hcm, hmap]
  · simp only [lazy_import_run, hc, if_true]
    cases htb : tb.f_back with
    | none => rfl
    | some cm =>
      by_cases hname : cm.co_name = "__exit__"
      · simp only [hname, if_true]
        cases hcm : cm.f_back with
        | none => simp [hcm]
        | some imp =>
          cases hmap : _map_lazy_importer v imp with
          | error e => simp [hcm, hmap]
          | ok binds => simp [hcm, hmap]
      · simp only [hname, if_false]

/-- Closed instantiation of the C1 amended theorem at a concrete version,
entry path, stack, and message pair. -/
theorem c1_sysPath_amended_witness :
    (lazy_import_run ver310 ["p"] BlockOutcome.normal tbFrameDemo).sysPath
        = ["p"]
    ∧ (lazy_import_run ver310 ["p"]
        (BlockOutcome.importError "No module named q") tbFrameDemo).sysPath
        = ["p"]
    ∧ (lazy_import_run ver310 ["p"]
        (BlockOutcome.importError "circular import") tbFrameDemo).sysPath
        = suppressionPath
    ∧ (lazy_import_run ver310 ["p"] BlockOutcome.otherException
        tbFrameDemo).sysPath = suppressionPath :=
  c1_sysPath_amended ver310 ["p"] tbFrameDemo "circular import"
    "No module named q" (by decide) (by decide)

/-- C3: on a resolution failure whose message carries the circular-import
marker, the guard leaves `sys.path` at the suppression configuration (it does
not restore it), finds the `__exit__` handler frame behind the traceback and
that frame's caller, delegates the caller frame to the Block Scanner/Binder
(`_map_lazy_importer`), and swallows the exception. -/
theorem c3_circular_swallow (v : List Nat) (p : List String) (msg : String)
    (tb cm imp : Frame) (binds : List Binding)
    (hmsg : isCircularMsg msg = true)
    (htb : tb.f_back = some cm)
    (hcm : cm.co_name = "__exit__")
    (himp : cm.f_back = some imp)
    (hmap : _map_lazy_importer v imp = Except.ok binds) :
    lazy_import_run v p (BlockOutcome.importError msg) tb
      = GuardExit.mk (GuardResult.swallowed imp binds) suppressionPath := by
  simp only [lazy_import_run, hmsg, if_true, htb, hcm, himp, hmap]

/-- Closed instantiation of the C3 theorem on the demonstration stack. -/
theorem c3_circular_swallow_witness :
    lazy_import_run ver310 ["p"] (BlockOutcome.importError "circular import")
        tbFrameDemo
      = GuardExit.mk (GuardResult.swallowed impFrameDemo []) suppressionPath :=
  c3_circular_swallow ver310 ["p"] "circular import" tbFrameDemo cmFrameDemo
    impFrameDemo [] (by decide) rfl rfl rfl rfl

/-- C6: handling a swallowed circular-import failure, when the frame above the
handler frame is absent or its code name is not `__exit__`, the guard aborts
with the loud internal `RuntimeError` — it does not degrade to a silent
no-op. -/
theorem c6_stack_shape_abort (v : List Nat) (p : List String) (msg : String)
    (tb : Frame) (hmsg : isCircularMsg msg = true)
    (hshape : tb.f_back = none
      ∨ ∃ cm, tb.f_back = some cm ∧ cm.co_name ≠ "__exit__") :
    lazy_import_run v p (BlockOutcome.importError msg) tb
      = GuardExit.mk (GuardResult.runtimeError "This should not happen. ")
          suppressionPath := by
  rcases hshape with h | ⟨cm, h1, h2⟩
  · simp only [lazy_import_run, hmsg, if_true, h]
  · simp only [lazy_import_run, hmsg, if_true, h1, h2, if_false]

/-- Closed instantiation of the C6 theorem: the handler frame has no caller
recognizable as `__exit__`. -/
theorem c6_stack_shape_abort_witness :
    lazy_import_run ver310 ["p"] (BlockOutcome.importError "circular import")
        (Frame.mk "lazy_import" [] (some (Frame.mk "wrapper" [] none)))
      = GuardExit.mk (GuardResult.runtimeError "This should not happen. ")
          suppressionPath :=
  c6_stack_shape_abort ver310 ["p"] "circular import"
    (Frame.mk "lazy_import" [] (some (Frame.mk "wrapper" [] none)))
    (by decide)
    (Or.inr ⟨Frame.mk "wrapper" [] none, rfl, by decide⟩)

/-- C7: on a resolution failure without the circular-import marker, the guard
restores the entry configuration, performs the same two-frame stack walk,
delegates the caller frame to the Block Scanner/Binder, and swallows the
exception. -/
theorem c7_noncircular_swallow (v : List Nat) (p : List String) (msg : String)
    (tb cm imp : Frame) (binds : List Binding)
    (hmsg : isCircularMsg msg = false)
    (htb : tb.f_back = some cm)
    (himp : cm.f_back = some imp)
    (hmap : _map_lazy_importer v imp = Except.ok binds) :
    lazy_import_run v p (BlockOutcome.importError msg) tb
      = GuardExit.mk (GuardResult.swallowed imp binds) p := by
  simp only [lazy_import_run, hmsg, Bool.false_eq_true, if_false, htb, himp,
    hmap]

/-- Closed instantiation of the C7 theorem on the demonstration stack. -/
theorem c7_noncircular_swallow_witness :
    lazy_import_run ver310 ["p"] (BlockOutcome.importError "No module named q")
        tbFrameDemo
      = GuardExit.mk (GuardResult.swallowed impFrameDemo []) ["p"] :=
  c7_noncircular_swallow ver310 ["p"] "No module named q" tbFrameDemo
    cmFrameDemo impFrameDemo [] (by decide) rfl rfl rfl

theorem joinAll_append (xs ys : List (List α)) :
    joinAll (xs ++ ys) = joinAll xs ++ joinAll ys := by
  induction xs with
  | nil => rfl
  | cons a t ih => simp [joinAll, ih]

theorem blockPartition_split (l : List Instruction) :
    ∀ acc : List (List Instruction) × List Instruction,
      joinAll (l.foldl blockStep acc).1 ++ (l.foldl blockStep acc).2
        = joinAll acc.1 ++ acc.2 ++ l := by
  induction l with
  | nil => intro acc; simp
  | cons i t ih =>
    intro acc
    simp only [List.foldl_cons]
    rw [ih]
    unfold blockStep
    by_cases h : i.starts_line = true
    · simp [h, joinAll_append, joinAll]
    · simp [h, joinAll]

/-- C9 (counterexample): an instruction of the final source line belongs to no
block the scanner examines — the partition loop never appends its trailing
buffer, so a one-instruction stream yields only the initial empty block. -/
theorem c9_counterexample :
    (Instruction.mk OpCode.POP_TOP ArgVal.vNone true)
        ∈ [Instruction.mk OpCode.POP_TOP ArgVal.vNone true]
    ∧ (instructionBlocks [Instruction.mk OpCode.POP_TOP ArgVal.vNone true]).all
        (fun b =>
          !(b.contains (Instruction.mk OpCode.POP_TOP ArgVal.vNone true)))
        = true := by
  decide

/-- C9 (amended): the scanner's partition covers the compiled instruction
stream only up to the final line-aligned run: the examined blocks concatenated
with the never-appended trailing buffer reconstruct the full stream in order,
so every instruction before the final source line's run lies in exactly one
examined block, while the final run stays in the trailing buffer and is
examined in no block. -/
theorem c9_partition_amended (instrs : List Instruction) :
    joinAll (instructionBlocks instrs) ++ (blockPartition instrs).2
      = instrs := by
  have h := blockPartition_split instrs ([], [])
  simpa [instructionBlocks, blockPartition, joinAll] using h

/-- C4: placeholder resolution is idempotent and at-most-once.  After a first
successful `_load` producing state `s₂`: a second `_load` returns the same
state and member without re-entering the loader (the ghost load counter, which
the first load raised by at most one, stays put), any later attribute access
leaves the state unchanged, a call resolves through the already-recorded
member, and the member table after two resolutions equals the table after
one. -/
theorem c4_load_idempotent {α : Type} (env : Env α) (s s₂ : LazyImporter α)
    (mem : Member α) (h : LazyImporter._load env s = some (s₂, mem)) :
    LazyImporter._load env s₂ = some (s₂, mem)
    ∧ s₂.loadCount ≤ s.loadCount + 1
    ∧ (∀ a r, LazyImporter.getattr env s₂ a = some r → r.1 = s₂)
    ∧ LazyImporter.call env s₂ = some (s₂, mem.callResult)
    ∧ (LazyImporter._load env s₂).map (fun q => q.1.dict) = some s₂.dict := by
  have key : s₂.loaded = some mem ∧ s₂.loadCount ≤ s.loadCount + 1 := by
    unfold LazyImporter._load at h
    cases hld : s.loaded with
    | some m0 =>
      simp only [hld, Option.some.injEq, Prod.mk.injEq] at h
      rcases h with ⟨h1, h2⟩
      rw [← h1, hld, h2]
      exact ⟨rfl, Nat.le_succ _⟩
    | none =>
      simp only [hld] at h
      cases henv : env s.module_name with
      | none => simp [henv] at h
      | some mod =>
        simp only [henv] at h
        cases hmem : mod.members.lookup s.varname with
        | none => simp [hmem] at h
        | some m1 =>
          simp only [hmem, Option.some.injEq, Prod.mk.injEq] at h
          rcases h with ⟨h1, h2⟩
          rw [← h1, h2]
          exact ⟨rfl, Nat.le_refl _⟩
  have hsecond : LazyImporter._load env s₂ = some (s₂, mem) := by
    unfold LazyImporter._load
    rw [key.1]
  refine ⟨hsecond, key.2, ?_, ?_, ?_⟩
  · intro a r hr
    unfold LazyImporter.getattr at hr
    cases hd : s₂.dict.lookup a with
    | some v =>
      rw [hd] at hr
      simp only [Option.some.injEq] at hr
      rw [← hr]
    | none =>
      simp only [hd, hsecond] at hr
      cases ha : mem.attrs.lookup a with
      | none => simp [ha] at hr
      | some v =>
        simp only [ha, Option.map_some', Option.some.injEq] at hr
        rw [← hr]
  · unfold LazyImporter.call
    rw [hsecond]
    rfl
  · rw [hsecond]
    rfl

/-- Closed instantiation of the C4 theorem: one concrete environment holding a
one-member module, resolved from a fresh placeholder. -/
theorem c4_load_idempotent_witness :
    LazyImporter._load
        (fun k => if k = "mod" then
          some (PyModule.mk [("X", Member.mk [("y", 7)] 3)]) else none)
        (LazyImporter.mk "mod" "X" (some (Member.mk [("y", 7)] 3)) [("y", 7)] 1)
      = some (LazyImporter.mk "mod" "X" (some (Member.mk [("y", 7)] 3))
          [("y", 7)] 1, Member.mk [("y", 7)] 3)
    ∧ (LazyImporter.mk "mod" "X" (some (Member.mk [("y", (7 : Nat))] 3))
        [("y", 7)] 1).loadCount
      ≤ (LazyImporter.mk "mod" "X" (none : Option (Member Nat)) [] 0).loadCount
          + 1
    ∧ (∀ a r, LazyImporter.getattr
        (fun k => if k = "mod" then
          some (PyModule.mk [("X", Member.mk [("y", 7)] 3)]) else none)
        (LazyImporter.mk "mod" "X" (some (Member.mk [("y", 7)] 3)) [("y", 7)] 1)
        a = some r →
        r.1 = LazyImporter.mk "mod" "X" (some (Member.mk [("y", 7)] 3))
          [("y", 7)] 1)
    ∧ LazyImporter.call
        (fun k => if k = "mod" then
          some (PyModule.mk [("X", Member.mk [("y", 7)] 3)]) else none)
        (LazyImporter.mk "mod" "X" (some (Member.mk [("y", 7)] 3)) [("y", 7)] 1)
      = some (LazyImporter.mk "mod" "X" (some (Member.mk [("y", 7)] 3))
          [("y", 7)] 1, 3)
    ∧ (LazyImporter._load
        (fun k => if k = "mod" then
          some (PyModule.mk [("X", Member.mk [("y", 7)] 3)]) else none)
        (LazyImporter.mk "mod" "X" (some (Member.mk [("y", 7)] 3))
          [("y", 7)] 1)).map (fun q => q.1.dict)
      = some [("y", 7)] :=
  c4_load_idempotent
    (fun k => if k = "mod" then
      some (PyModule.mk [("X", Member.mk [("y", 7)] 3)]) else none)
    (LazyImporter.mk "mod" "X" none [] 0)
    (LazyImporter.mk "mod" "X" (some (Member.mk [("y", 7)] 3)) [("y", 7)] 1)
    (Member.mk [("y", 7)] 3) (by rfl)

/-- C2: for a single guarded block compiled from exactly one
`from m import n` statement, the Binder's writes for the owning frame are
exactly one placeholder bound under `n` (so the frame's local namespace holds
it under `n` afterwards), that placeholder starts unresolved, and the value of
a first attribute access on it equals the corresponding attribute of the
member `n` of the eagerly-imported module `m`, for every environment and every
attribute (including agreement on missing attributes, where both raise). -/
theorem c2_single_from_import {α : Type} (m n : String) (env : Env α) :
    _map_lazy_importer ver310
        (Frame.mk "<module>" (guardedFromImportCode m n) none)
      = Except.ok [Binding.mk n m]
    ∧ List.lookup n (applyBindings ([] : List (String × LazyImporter α))
        [Binding.mk n m]) = some (freshPlaceholder (Binding.mk n m))
    ∧ (freshPlaceholder (Binding.mk n m) : LazyImporter α).loaded = none
    ∧ ∀ a : String,
        (LazyImporter.getattr env (freshPlaceholder (Binding.mk n m)) a).map
            (fun r => r.2)
          = eagerImportAttr env m n a := by
  refine ⟨rfl, ?_, rfl, ?_⟩
  · simp [applyBindings, setAttr, List.lookup]
  · intro a
    cases henv : env m with
    | none =>
      simp [LazyImporter.getattr, LazyImporter._load, freshPlaceholder,
        eagerImportAttr, henv]
    | some mod =>
      cases hmem : List.lookup n mod.members with
      | none =>
        simp [LazyImporter.getattr, LazyImporter._load, freshPlaceholder,
          eagerImportAttr, henv, hmem]
      | some mem =>
        cases ha : List.lookup a mem.attrs with
        | none =>
          simp [LazyImporter.getattr, LazyImporter._load, freshPlaceholder,
            eagerImportAttr, henv, hmem, ha]
        | some v =>
          simp [LazyImporter.getattr, LazyImporter._load, freshPlaceholder,
            eagerImportAttr, henv, hmem, ha]

theorem extract_imports_cons (a b : Instruction) (t : List Instruction) :
    _extract_imports (a :: b :: t)
      = (if a.opcode = OpCode.LOAD_CONST ∧ b.opcode = OpCode.IMPORT_NAME then
          [(argvalStr b.argval, argvalNames a.argval)] else [])
        ++ _extract_imports (b :: t) := by
  simp only [_extract_imports, List.tail_cons, List.zip_cons_cons,
    List.filterMap_cons]
  by_cases h : a.opcode = OpCode.LOAD_CONST ∧ b.opcode = OpCode.IMPORT_NAME
  · simp [h]
  · simp [h]

theorem extract_eq_spec (l : List Instruction)
    (hwf : ∀ i ∈ l, i.opcode = OpCode.LOAD_CONST →
      constIsAbsentOrNames i.argval = true) :
    _extract_imports l = extractImportsSpec l := by
  induction l with
  | nil => rfl
  | cons a t ih =>
    cases t with
    | nil => rfl
    | cons b t' =>
      have hwf' : ∀ i ∈ b :: t', i.opcode = OpCode.LOAD_CONST →
          constIsAbsentOrNames i.argval = true :=
        fun i hi => hwf i (List.mem_cons_of_mem a hi)
      rw [extract_imports_cons]
      by_cases h : a.opcode = OpCode.LOAD_CONST ∧ b.opcode = OpCode.IMPORT_NAME
      · have hC := hwf a (List.mem_cons_self a _) h.1
        rw [if_pos h]
        unfold extractImportsSpec
        rw [if_pos ⟨h.1, hC, h.2⟩]
        simp [ih hwf']
      · rw [if_neg h]
        unfold extractImportsSpec
        rw [if_neg (fun hs => h ⟨hs.1, hs.2.2⟩)]
        simp [ih hwf']

/-- C5: over any instruction block whose load-constant arguments are of the
compiled-import kind (absent or a sequence of identifiers), the extractor
emits a declaration exactly for each adjacent pair of a load-constant and an
import-module-by-name, in instruction order, with an empty name sequence
when the constant is absent; a declaration with no names yields zero
placeholder bindings, and a guarded bare module import runs the whole
pipeline to zero bindings with the guard still exiting cleanly. -/
theorem c5_extract_exact (block : List Instruction) (m : String)
    (p : List String)
    (hwf : ∀ i ∈ block, i.opcode = OpCode.LOAD_CONST →
      constIsAbsentOrNames i.argval = true) :
    _extract_imports block = extractImportsSpec block
    ∧ bindingsOfDecls [(m, [])] = []
    ∧ _map_lazy_importer ver310
        (Frame.mk "<module>" (guardedBareImportCode m) none) = Except.ok []
    ∧ lazy_import_run ver310 p
        (BlockOutcome.importError "No module named m")
        (Frame.mk "lazy_import" []
          (some (Frame.mk "__exit__" []
            (some (Frame.mk "<module>" (guardedBareImportCode m) none)))))
      = GuardExit.mk
          (GuardResult.swallowed
            (Frame.mk "<module>" (guardedBareImportCode m) none) []) p :=
  ⟨extract_eq_spec block hwf, rfl, rfl, rfl⟩

/-- Closed instantiation of the C5 theorem on the concrete compiled form of a
guarded from-import. -/
theorem c5_extract_exact_witness :
    _extract_imports (guardedFromImportCode "mm" "nn")
      = extractImportsSpec (guardedFromImportCode "mm" "nn") :=
  (c5_extract_exact (guardedFromImportCode "mm" "nn") "os" ["p"]
    (by decide)).1

theorem pyGe312_le311_false (v : List Nat) (h : pyLe [3, 12] v = true) :
    pyLe v [3, 11] = false ∧ pyLt v [3, 12] = false := by
  match v with
  | [] => exact absurd h (by decide)
  | [a] =>
    simp [pyLe, pyLt] at h ⊢
    omega
  | a :: b :: rest =>
    cases rest with
    | nil =>
      simp [pyLe, pyLt] at h ⊢
      omega
    | cons c rest' =>
      simp [pyLe, pyLt] at h ⊢
      omega

/-- C8: the classifier selects its open-block pattern by interpreter version —
the four-instruction shape for versions at or below (3, 11), the
six-instruction shape (with the null-argument marker and the `PRECALL`/`CALL`
opcodes) for the 3.11 range — and on any version matching neither branch,
in particular every version at or above (3, 12), it fails at once with the
unsupported-version error rather than falling back. -/
theorem c8_version_dispatch (v : List Nat) (block : List Instruction) :
    (pyLe v [3, 11] = true →
      _is_being_lazy v block = Except.ok (matchOpen39 block)
      ∧ (matchOpen39 block = true → block.length = 4))
    ∧ (pyLe v [3, 11] = false → (pyGe v [3, 11] && pyLt v [3, 12]) = true →
      _is_being_lazy v block = Except.ok (matchOpen311 block)
      ∧ (matchOpen311 block = true → block.length = 6
          ∧ OpCode.PUSH_NULL ∈ block.map (fun i => i.opcode)
          ∧ OpCode.CALL ∈ block.map (fun i => i.opcode)))
    ∧ (pyLe v [3, 11] = false → (pyGe v [3, 11] && pyLt v [3, 12]) = false →
      _is_being_lazy v block = Except.error (unsupportedMessage v))
    ∧ (pyLe [3, 12] v = true →
      _is_being_lazy v block = Except.error (unsupportedMessage v)) := by
  refine ⟨?_, ?_, ?_, ?_⟩
  · intro h
    refine ⟨by simp [_is_being_lazy, h], ?_⟩
    intro hm
    unfold matchOpen39 at hm
    split at hm
    · rfl
    · simp at hm
  · intro h1 h2
    refine ⟨by simp [_is_being_lazy, h1, h2], ?_⟩
    intro hm
    unfold matchOpen311 at hm
    split at hm
    · next i1 i2 i3 i4 i5 i6 =>
      simp only [decide_eq_true_eq] at hm
      refine ⟨rfl, ?_, ?_⟩
      · simp [hm.2.2.1]
      · simp [hm.2.2.2.2.1]
    · simp at hm
  · intro h1 h2
    simp [_is_being_lazy, h1, h2]
  · intro h
    have hh := pyGe312_le311_false v h
    have h2 : (pyGe v [3, 11] && pyLt v [3, 12]) = false := by
      simp [hh.2]
    simp [_is_being_lazy, hh.1, h2]

/-- Closed instantiation of the C8 theorem: interpreter 3.12.0 is rejected
with the loud unsupported-version error. -/
theorem c8_version_dispatch_witness :
    _is_being_lazy [3, 12, 0] ([] : List Instruction)
      = Except.error (unsupportedMessage [3, 12, 0]) :=
  (c8_version_dispatch [3, 12, 0] []).2.2.2 (by decide)

theorem collectLoop_no_open (v : List Nat) (bs : List (List Instruction)) :
    ∀ acc : List (List (List Instruction)),
      (∀ b ∈ bs, _is_being_lazy v b = Except.ok false) →
      collectLoop v bs acc none = Except.ok acc := by
  induction bs with
  | nil => intro acc _; rfl
  | cons b rest ih =>
    intro acc h
    have hb := h b (List.mem_cons_self b rest)
    have hrest : ∀ x ∈ rest, _is_being_lazy v x = Except.ok false :=
      fun x hx => h x (List.mem_cons_of_mem b hx)
    unfold collectLoop
    rw [hb]
    exact ih acc hrest

theorem find_no_open (v : List Nat) (code : List Instruction)
    (h : ∀ b ∈ instructionBlocks code, _is_being_lazy v b = Except.ok false) :
    _find_what_to_imports v code = Except.ok [] := by
  unfold _find_what_to_imports
  rw [collectLoop_no_open v _ [] h]
  rfl

/-- C10: when the guard was invoked under any bound name other than the
literal `lazy_import`, the open pattern does not match, the whole scan of the
owning frame collects no region and binds zero placeholders, and the guard
still swallows the forced circular-import failure (with an empty write
list). -/
theorem c10_alias_not_recognized (aname : String) (h : aname ≠ LAZY_IMPORT) :
    _is_being_lazy ver310 (aliasOpenBlock aname) = Except.ok false
    ∧ _map_lazy_importer ver310
        (Frame.mk "<module>" (aliasedGuardCode aname "m" "n") none)
      = Except.ok []
    ∧ lazy_import_run ver310 ["p"]
        (BlockOutcome.importError "circular import")
        (Frame.mk "lazy_import" []
          (some (Frame.mk "__exit__" []
            (some (Frame.mk "<module>" (aliasedGuardCode aname "m" "n")
              none)))))
      = GuardExit.mk
          (GuardResult.swallowed
            (Frame.mk "<module>" (aliasedGuardCode aname "m" "n") none) [])
          suppressionPath := by
  have hopen : matchOpen39 (aliasOpenBlock aname) = false := by
    simp [matchOpen39, aliasOpenBlock, h]
  have h1 : _is_being_lazy ver310 (aliasOpenBlock aname)
      = Except.ok (matchOpen39 (aliasOpenBlock aname)) := rfl
  have hlazy : _is_being_lazy ver310 (aliasOpenBlock aname)
      = Except.ok false := by rw [h1, hopen]
  have hblocks : instructionBlocks (aliasedGuardCode aname "m" "n")
      = [[], aliasOpenBlock aname, aliasImportCloseBlock] := rfl
  have hfind : _find_what_to_imports ver310 (aliasedGuardCode aname "m" "n")
      = Except.ok [] := by
    apply find_no_open
    intro b hb
    rw [hblocks] at hb
    simp only [List.mem_cons, List.not_mem_nil, or_false] at hb
    rcases hb with hb | hb | hb
    · rw [hb]; rfl
    · rw [hb]; exact hlazy
    · rw [hb]; rfl
  have hmap : _map_lazy_importer ver310
      (Frame.mk "<module>" (aliasedGuardCode aname "m" "n") none)
      = Except.ok [] := by
    unfold _map_lazy_importer
    simp only [Frame.f_code, hfind]
    rfl
  refine ⟨hlazy, hmap, ?_⟩
  have hcirc : isCircularMsg "circular import" = true := by decide
  simp only [lazy_import_run, hcirc, if_true, Frame.f_back, Frame.co_name,
    hmap]

/-- Closed instantiation of the C10 theorem at the alias `lz`. -/
theorem c10_alias_not_recognized_witness :
    _map_lazy_importer ver310
        (Frame.mk "<module>" (aliasedGuardCode "lz" "m" "n") none)
      = Except.ok [] :=
  (c10_alias_not_recognized "lz" (by decide)).2.1

end LazyImport
